import Mathlib

/-!
Verification of the Residencia-NNA backend core logic: the role-hierarchy
authorization check (`app/middleware/rbac.py`), the JWT authentication gate
(`app/middleware/auth.py`), the Chilean RUT validator
(`app/utils/validators.py`), the automatic alert generators
(`app/routers/alertas.py`, `app/routers/juridico.py`), and user-account
operations (`app/routers/users.py`, `app/routers/auth.py`).

Modelling conventions:
- MongoDB collections are lists of documents (structures); `find_one` is
  `List.find?`, `insert_one` appends, `delete_one` removes the first match.
- Calendar dates are modelled as `Int` day numbers; comparison of ISO-8601
  date strings (as done by the Mongo range queries in the source) is
  order-isomorphic to comparison of day numbers.
- Fallible Python code (KeyError on a missing document field, `bson.InvalidId`)
  is modelled with `Except` / `Option`.
-/

namespace ResidenciaNNA

/-! ## Role hierarchy (`app/middleware/rbac.py`) -/

/-- The `ROLE_HIERARCHY` dict from `rbac.py` (larger number = more rights). -/
def ROLE_HIERARCHY : List (String × Nat) :=
  [("viewer", 1), ("tecnico", 2), ("coordinador", 3), ("admin", 4)]

/-- Python `dict.get(key, default)` on an association list. -/
def dictGet (d : List (String × Nat)) (key : String) (default : Nat) : Nat :=
  match d.find? (fun p => p.1 == key) with
  | some p => p.2
  | none => default

/-- `has_permission` from `rbac.py`: compare hierarchy levels, unknown roles
mapping to level 0. -/
def has_permission (user_role required_role : String) : Bool :=
  decide (dictGet ROLE_HIERARCHY user_role 0 ≥ dictGet ROLE_HIERARCHY required_role 0)

/-- The closed set of roles appearing in `ROLE_HIERARCHY`. -/
inductive Role
  | viewer
  | tecnico
  | coordinador
  | admin
deriving DecidableEq, Repr

/-- Role tag as the string stored in documents and tokens. -/
def Role.toStr : Role → String
  | .viewer => "viewer"
  | .tecnico => "tecnico"
  | .coordinador => "coordinador"
  | .admin => "admin"

/-! ## RUT validator (`app/utils/validators.py`) -/

/-- Python `rut.upper().replace(".", "").replace("-", "")`, as a character
list. -/
def cleanRutChars (rut : String) : List Char :=
  (rut.toList.map Char.toUpper).filter (fun c => c != '.' && c != '-')

/-- The checksum loop of `validate_rut_chile`: iterate over the body digits
from least significant, multiplier cycling 2,3,4,5,6,7. -/
def sumaRut : List Char → Nat → Nat → Nat
  | [], suma, _ => suma
  | d :: rest, suma, multiplo =>
      sumaRut rest (suma + (d.toNat - 48) * multiplo)
        (if multiplo < 7 then multiplo + 1 else 2)

/-- Map `11 - (suma % 11)` to the expected check digit, 11 ↦ "0", 10 ↦ "K". -/
def dvCalculado (suma : Nat) : String :=
  let dv := 11 - suma % 11
  if dv = 11 then "0"
  else if dv = 10 then "K"
  else toString dv

/-- `validate_rut_chile` from `validators.py`. -/
def validate_rut_chile (rut : String) : Bool :=
  if rut = "" then true
  else
    let chars := cleanRutChars rut
    if chars.length < 2 then false
    else
      match chars.getLast? with
      | none => false
      | some dv =>
        let cuerpo := chars.dropLast
        if ¬ cuerpo.all Char.isDigit then false
        else dv.toString == dvCalculado (sumaRut cuerpo.reverse 0 2)

/-- Python `str.isdigit` on the character fragment modelled here: the ASCII
decimal digits together with the superscript digits '¹', '²', '³' (U+00B9,
U+00B2, U+00B3). The superscripts carry Unicode `Numeric_Type=Digit`, so
`str.isdigit` accepts them even though `int()` rejects them. (The full
Unicode table is not reproduced; this fragment covers every input the claims
evaluate.) -/
def pyIsDigit (c : Char) : Bool :=
  c.isDigit || c == '¹' || c == '²' || c == '³'

/-- Python `int(d)` for a single character: on the modelled fragment it is
defined exactly on the ASCII decimal digits; on any other character —
including the superscript digits that `str.isdigit` accepts — `int` raises
`ValueError`, modelled as `none`. -/
def charDigit (c : Char) : Option Nat :=
  if c.isDigit then some (c.toNat - 48) else none

/-- The checksum loop with every `int(d)` conversion made explicitly
fallible, to track where `validate_rut_chile` raises. -/
def sumaRutChecked : List Char → Nat → Nat → Option Nat
  | [], suma, _ => some suma
  | d :: rest, suma, multiplo =>
      match charDigit d with
      | none => none
      | some n =>
          sumaRutChecked rest (suma + n * multiplo)
            (if multiplo < 7 then multiplo + 1 else 2)

/-- `validate_rut_chile` with each partial operation of the Python source
made explicitly fallible: the `cuerpo.isdigit()` guard is Python's
`str.isdigit` (`pyIsDigit`), while each `int(d)` conversion in the loop is
the stricter `charDigit`; a `none` result marks an uncaught exception in the
Python source. `validate_rut_chile` above is the total ASCII restriction
that agrees with the source wherever the source returns. -/
def validate_rut_chileChecked (rut : String) : Option Bool :=
  if rut = "" then some true
  else
    let chars := cleanRutChars rut
    if chars.length < 2 then some false
    else
      match chars.getLast? with
      | none => none
      | some dv =>
        let cuerpo := chars.dropLast
        if ¬ cuerpo.all pyIsDigit then some false
        else
          match sumaRutChecked cuerpo.reverse 0 2 with
          | none => none
          | some suma => some (dv.toString == dvCalculado suma)

/-! ## Data model (document structures and the database) -/

/-- `TokenData` from `models/user.py`: all fields `Optional[str]`. -/
structure TokenData where
  user_id : Option String
  email : Option String
  rol : Option String
deriving DecidableEq, Repr

/-- A user document in the `usuarios` collection. -/
structure Usuario where
  id : String
  email : String
  nombre : String
  rol : String
  activo : Option Bool
  password_hash : String
  ultimo_acceso : Option Int
deriving DecidableEq, Repr

/-- An NNA (resident) document: only the fields read by the alert
generators. -/
structure NNA where
  id : String
  nombre : String
  apellido : String
deriving DecidableEq, Repr

/-- An intervention document: the fields read by
`generar_alertas_vencimientos`. Fields accessed with a bare `doc["k"]` in the
source raise `KeyError` when absent, hence `Option`. -/
structure Intervencion where
  id : String
  nna_id : Option String
  fecha : Option String
  fecha_proximo_seguimiento : Option Int
  estado : String
  prioridad : Option String
deriving DecidableEq, Repr

/-- A workshop document: the fields read by `generar_alertas_vencimientos`.
`fecha` is always present on selected documents because the Mongo range query
only matches documents carrying the field. -/
structure Taller where
  id : String
  nombre : Option String
  fecha : Int
  hora_inicio : Option String
  estado : String
deriving DecidableEq, Repr

/-- A judicial-measure document: the fields read by
`generar_alertas_vencimiento` in `juridico.py`. -/
structure Medida where
  id : String
  nna_id : Option String
  tipo_medida : Option String
  fecha_termino : Int
  estado : String
deriving DecidableEq, Repr

/-- An alert document as inserted by the generators. -/
structure Alerta where
  nna_id : Option String
  titulo : String
  mensaje : String
  tipo : String
  prioridad : String
  fecha_vencimiento : Option Int
  estado : String
  entidad_tipo : String
  entidad_id : String
  creado_por : Option String
deriving DecidableEq, Repr

/-- The collections touched by the verified endpoints. -/
structure DB where
  usuarios : List Usuario
  nna : List NNA
  intervenciones : List Intervencion
  talleres : List Taller
  medidas_judiciales : List Medida
  alertas : List Alerta
deriving DecidableEq, Repr

/-- `bson.ObjectId.is_valid` on a string: 24 hexadecimal characters.
`ObjectId(s)` raises `InvalidId` exactly when this is false. -/
def isValidObjectId (s : String) : Bool :=
  s.length == 24 && s.toList.all (fun c =>
    c.isDigit || ('a' ≤ c && c ≤ 'f') || ('A' ≤ c && c ≤ 'F'))

/-! ## Authentication gate (`app/middleware/auth.py`) -/

/-- A decoded JWT payload: the claims read by the gate, each possibly
absent (`payload.get(...)` returns `None`). -/
structure Payload where
  type? : Option String
  sub? : Option String
  email? : Option String
  rol? : Option String
deriving DecidableEq, Repr

/-- `verify_token_type` from `utils/security.py`:
`payload.get("type") == expected_type`. -/
def verify_token_type (payload : Payload) (expected_type : String) : Bool :=
  payload.type? == some expected_type

/-- Errors raised by the authentication and router functions (the
`HTTPException`s of the source, by status code and detail). -/
inductive ApiError
  | badRequest (detail : String)
  | unauthorized (detail : String)
  | forbidden (detail : String)
  | notFound (detail : String)
deriving DecidableEq, Repr

/-- `get_current_user` from `middleware/auth.py`, applied to the result of
`decode_token` (`none` models a token the codec rejected). -/
def get_current_user (payload? : Option Payload) : Except ApiError TokenData :=
  match payload? with
  | none => .error (.unauthorized "Credenciales inválidas")
  | some payload =>
    if ¬ verify_token_type payload "access" then
      .error (.unauthorized "Tipo de token inválido")
    else if payload.sub?.isNone || payload.email?.isNone then
      .error (.unauthorized "Credenciales inválidas")
    else
      .ok ⟨payload.sub?, payload.email?, payload.rol?⟩

/-- `get_current_active_user` from `middleware/auth.py`: re-resolve the
account by id and reject when the stored `activo` flag, defaulted to `True`
when absent, is false. -/
def get_current_active_user (db : DB) (current_user : TokenData) :
    Except ApiError TokenData :=
  match db.usuarios.find? (fun u => current_user.user_id == some u.id) with
  | none => .error (.notFound "Usuario no encontrado")
  | some user =>
    if ¬ (user.activo.getD true) then
      .error (.forbidden "Usuario desactivado")
    else
      .ok current_user

/-! ## Login (`app/routers/auth.py`) -/

/-- The request body of `POST /auth/login`. -/
structure UserLogin where
  email : String
  password : String
deriving DecidableEq, Repr

/-- The claim set the tokens are minted from (the `token_data` dict in
`login`); the JWT codec that encodes it is an external collaborator. -/
structure TokenClaims where
  sub : String
  email : String
  rol : String
  nombre : String
deriving DecidableEq, Repr

/-- Mongo `update_one`: set `ultimo_acceso` on the first document with the
given id. -/
def setUltimoAcceso : List Usuario → String → Int → List Usuario
  | [], _, _ => []
  | u :: rest, uid, now =>
      if u.id == uid then { u with ultimo_acceso := some now } :: rest
      else u :: setUltimoAcceso rest uid now

/-- `login` from `routers/auth.py`. `verify` is the password-hash collaborator
(`verify_password`); `now` is the current time for the `ultimo_acceso`
update. Returns the updated database and the claims of the issued tokens. -/
def login (verify : String → String → Bool) (db : DB)
    (credentials : UserLogin) (now : Int) : Except ApiError (DB × TokenClaims) :=
  match db.usuarios.find? (fun u => u.email == credentials.email) with
  | none => .error (.unauthorized "Email o contraseña incorrectos")
  | some user =>
    if ¬ (user.activo.getD true) then
      .error (.forbidden "Usuario desactivado. Contacte al administrador.")
    else if ¬ verify credentials.password user.password_hash then
      .error (.unauthorized "Email o contraseña incorrectos")
    else
      .ok ({ db with usuarios := setUltimoAcceso db.usuarios user.id now },
           ⟨user.id, user.email, user.rol, user.nombre⟩)

/-! ## User deletion (`app/routers/users.py`) -/

/-- Mongo `delete_one`: remove the first document matching the predicate. -/
def deleteOneUsuario : List Usuario → (Usuario → Bool) → List Usuario
  | [], _ => []
  | u :: rest, p => if p u then rest else u :: deleteOneUsuario rest p

/-- `delete_user` from `routers/users.py` (the role gate `require_admin` is
enforced upstream by the dependency system). -/
def delete_user (db : DB) (user_id : String) (current_user : TokenData) :
    Except ApiError DB :=
  if ¬ isValidObjectId user_id then
    .error (.badRequest "ID de usuario inválido")
  else
    match db.usuarios.find? (fun u => u.id == user_id) with
    | none => .error (.notFound "Usuario no encontrado")
    | some existing =>
      if existing.email == "admin@residencia.cl" then
        .error (.forbidden "No se puede eliminar el usuario administrador principal")
      else if current_user.user_id == some existing.id then
        .error (.badRequest "No puede eliminar su propio usuario")
      else
        .ok { db with usuarios := deleteOneUsuario db.usuarios (fun u => u.id == user_id) }

/-! ## Alert generators (`app/routers/alertas.py`, `app/routers/juridico.py`) -/

/-- The dedupe query both generators issue before inserting: an alert with the
same subject key and category whose state is active or in progress. -/
def existeAlertaActiva (alertas : List Alerta)
    (entidad_tipo entidad_id tipo : String) : Bool :=
  alertas.any (fun a =>
    a.entidad_tipo == entidad_tipo && a.entidad_id == entidad_id &&
    a.tipo == tipo && (a.estado == "activa" || a.estado == "en_proceso"))

/-- The dedupe query applied to a packaged subject key
(entity type, entity id, category). -/
def existeAlertaActivaKey (alertas : List Alerta)
    (k : String × String × String) : Bool :=
  existeAlertaActiva alertas k.1 k.2.1 k.2.2

/-- Interventions selected by `generar_alertas_vencimientos`: next follow-up
within [today, today+7] and state pending or in progress; `to_list(100)`. -/
def intervencionesCandidatas (db : DB) (today : Int) : List Intervencion :=
  (db.intervenciones.filter (fun i =>
    (match i.fecha_proximo_seguimiento with
     | some d => decide (today ≤ d) && decide (d ≤ today + 7)
     | none => false)
    && (i.estado == "pendiente" || i.estado == "en_proceso"))).take 100

/-- Workshops selected by `generar_alertas_vencimientos`: date within
[today, today+7] and state scheduled; `to_list(100)`. -/
def talleresCandidatos (db : DB) (today : Int) : List Taller :=
  (db.talleres.filter (fun t =>
    decide (today ≤ t.fecha) && decide (t.fecha ≤ today + 7) &&
    t.estado == "programado")).take 100

/-- Judicial measures selected by `generar_alertas_vencimiento`: end date
within [today, today+30] and state in force or issued; `to_list(100)`. -/
def medidasCandidatas (db : DB) (today : Int) : List Medida :=
  (db.medidas_judiciales.filter (fun m =>
    decide (today ≤ m.fecha_termino) && decide (m.fecha_termino ≤ today + 30) &&
    (m.estado == "vigente" || m.estado == "dictada"))).take 100

/-- Resident-name resolution shared by the generators: look up the NNA by id
and fall back to the string "NNA" when no document matches. -/
def nnaNombre (db : DB) (nid : String) : String :=
  match db.nna.find? (fun x => x.id == nid) with
  | some x => x.nombre ++ " " ++ x.apellido
  | none => "NNA"

/-- Follow-up alert priority: "alta" when the source intervention is urgent,
"media" otherwise. -/
def prioridadIntervencion (p : Option String) : String :=
  if p == some "urgente" then "alta" else "media"

/-- Judicial-measure alert priority by days remaining:
`"critica" if dias_restantes <= 7 else "alta" if dias_restantes <= 15 else "media"`. -/
def prioridadMedida (dias_restantes : Int) : String :=
  if dias_restantes ≤ 7 then "critica"
  else if dias_restantes ≤ 15 then "alta"
  else "media"

/-- The alert document inserted for a pending follow-up. -/
def mkAlertaIntervencion (interv : Intervencion) (nid nombre fecha : String)
    (user : TokenData) : Alerta :=
  { nna_id := some nid
  , titulo := "Seguimiento pendiente: " ++ nombre
  , mensaje := "La intervención del " ++ fecha ++ " requiere seguimiento antes del "
      ++ (match interv.fecha_proximo_seguimiento with
          | some d => toString d
          | none => "N/A")
  , tipo := "seguimiento_pendiente"
  , prioridad := prioridadIntervencion interv.prioridad
  , fecha_vencimiento := interv.fecha_proximo_seguimiento
  , estado := "activa"
  , entidad_tipo := "intervencion"
  , entidad_id := interv.id
  , creado_por := user.user_id }

/-- The alert document inserted for an upcoming workshop. -/
def mkAlertaTaller (taller : Taller) (nombre : String) (user : TokenData) : Alerta :=
  { nna_id := none
  , titulo := "Taller próximo: " ++ nombre
  , mensaje := "El taller '" ++ nombre ++ "' está programado para el "
      ++ toString taller.fecha ++ " a las " ++ taller.hora_inicio.getD "N/A"
  , tipo := "taller_proximo"
  , prioridad := "media"
  , fecha_vencimiento := some taller.fecha
  , estado := "activa"
  , entidad_tipo := "taller"
  , entidad_id := taller.id
  , creado_por := user.user_id }

/-- The alert document inserted for a judicial measure nearing expiry. -/
def mkAlertaMedida (today : Int) (medida : Medida) (nid nombre : String)
    (user : TokenData) : Alerta :=
  { nna_id := some nid
  , titulo := "Medida próxima a vencer: " ++ nombre
  , mensaje := "La medida judicial vence el " ++ toString medida.fecha_termino
      ++ ". Quedan " ++ toString (medida.fecha_termino - today) ++ " días."
  , tipo := "vencimiento_plazo"
  , prioridad := prioridadMedida (medida.fecha_termino - today)
  , fecha_vencimiento := some medida.fecha_termino
  , estado := "activa"
  , entidad_tipo := "medida_judicial"
  , entidad_id := medida.id
  , creado_por := user.user_id }

/-- An uncaught Python exception aborting a generator batch: `KeyError` on a
missing document field, or `bson.InvalidId` from `ObjectId(...)`. -/
inductive BatchError
  | keyError (field : String)
  | invalidId (value : String)
deriving DecidableEq, Repr

/-- One iteration of the intervention loop in `generar_alertas_vencimientos`:
skip when a live alert for the same subject exists, otherwise resolve the
resident (raising on a missing or malformed `nna_id`) and insert. -/
def procesarIntervencion (db : DB) (user : TokenData)
    (acc : List Alerta × Nat) (interv : Intervencion) :
    Except BatchError (List Alerta × Nat) :=
  if existeAlertaActiva acc.1 "intervencion" interv.id "seguimiento_pendiente" then
    .ok acc
  else
    match interv.nna_id with
    | none => .error (.keyError "nna_id")
    | some nid =>
      if ¬ isValidObjectId nid then .error (.invalidId nid)
      else
        match interv.fecha with
        | none => .error (.keyError "fecha")
        | some fecha =>
          .ok (acc.1 ++ [mkAlertaIntervencion interv nid (nnaNombre db nid) fecha user],
               acc.2 + 1)

/-- One iteration of the workshop loop in `generar_alertas_vencimientos`. -/
def procesarTaller (user : TokenData) (acc : List Alerta × Nat) (taller : Taller) :
    Except BatchError (List Alerta × Nat) :=
  if existeAlertaActiva acc.1 "taller" taller.id "taller_proximo" then
    .ok acc
  else
    match taller.nombre with
    | none => .error (.keyError "nombre")
    | some nombre =>
      .ok (acc.1 ++ [mkAlertaTaller taller nombre user], acc.2 + 1)

/-- One iteration of the measure loop in `generar_alertas_vencimiento`. -/
def procesarMedida (db : DB) (today : Int) (user : TokenData)
    (acc : List Alerta × Nat) (medida : Medida) :
    Except BatchError (List Alerta × Nat) :=
  if existeAlertaActiva acc.1 "medida_judicial" medida.id "vencimiento_plazo" then
    .ok acc
  else
    match medida.nna_id with
    | none => .error (.keyError "nna_id")
    | some nid =>
      if ¬ isValidObjectId nid then .error (.invalidId nid)
      else
        .ok (acc.1 ++ [mkAlertaMedida today medida nid (nnaNombre db nid) user],
             acc.2 + 1)

/-- `POST /alertas/generar/vencimientos` (`generar_alertas_vencimientos` in
`routers/alertas.py`): process pending follow-ups then upcoming workshops,
inserting deduplicated alerts, and return the updated database with the count
of alerts created. -/
def generar_alertas_vencimientos (db : DB) (today : Int)
    (current_user : TokenData) : Except BatchError (DB × Nat) := do
  let acc1 ← (intervencionesCandidatas db today).foldlM
    (procesarIntervencion db current_user) (db.alertas, 0)
  let acc2 ← (talleresCandidatos db today).foldlM
    (procesarTaller current_user) acc1
  .ok ({ db with alertas := acc2.1 }, acc2.2)

/-- `POST /juridico/generar-alertas-vencimiento` (`generar_alertas_vencimiento`
in `routers/juridico.py`): process judicial measures nearing expiry. -/
def generar_alertas_vencimiento (db : DB) (today : Int)
    (current_user : TokenData) : Except BatchError (DB × Nat) := do
  let acc ← (medidasCandidatas db today).foldlM
    (procesarMedida db today current_user) (db.alertas, 0)
  .ok ({ db with alertas := acc.1 }, acc.2)

/-! ## Concrete fixtures used to exercise the generators -/

/-- A coordinator principal, as resolved from a valid access token. -/
def cuEjemplo : TokenData :=
  ⟨some "64a0000000000000000000aa", some "coordinador@residencia.cl", some "coordinador"⟩

/-- A syntactically valid `ObjectId` string of an NNA document. -/
def nidEjemplo : String := "aaaaaaaaaaaaaaaaaaaaaaaa"

/-- A database holding one pending intervention, one scheduled workshop and
one judicial measure in force, all inside the generators' date windows for
`today = 0`, with no pre-existing alerts. -/
def dbEjemplo : DB :=
  { usuarios := []
  , nna := []
  , intervenciones := [⟨"i1", some nidEjemplo, some "2025-01-01", some 3, "pendiente", some "urgente"⟩]
  , talleres := [⟨"t1", some "Taller de arte", 5, some "10:00", "programado"⟩]
  , medidas_judiciales := [⟨"m1", some nidEjemplo, some "proteccion", 5, "vigente"⟩]
  , alertas := [] }

/-- The database after one run of the vencimientos generator on `dbEjemplo`. -/
def dbEjemplo1 : DB :=
  match generar_alertas_vencimientos dbEjemplo 0 cuEjemplo with
  | .ok r => r.1
  | .error _ => dbEjemplo

/-- The database after one run of the judicial generator on `dbEjemplo`. -/
def dbEjemplo2 : DB :=
  match generar_alertas_vencimiento dbEjemplo 0 cuEjemplo with
  | .ok r => r.1
  | .error _ => dbEjemplo

/-- A database whose single candidate intervention lacks the `nna_id` field. -/
def dbMalformada : DB :=
  { dbEjemplo with
    intervenciones := [⟨"i2", none, some "2025-01-01", some 3, "pendiente", none⟩]
  , talleres := []
  , medidas_judiciales := [] }

/-- A technician account document with no `activo` field stored. -/
def usuActivoEjemplo : Usuario :=
  ⟨"64b000000000000000000002", "tecnico@residencia.cl", "Tec", "tecnico",
   none, "hashpw", none⟩

/-- The root administrator account document. -/
def usuRootEjemplo : Usuario :=
  ⟨"64b000000000000000000001", "admin@residencia.cl", "Admin", "admin",
   some true, "hashroot", none⟩

/-- A database holding the root administrator and the technician account. -/
def dbUsuariosEjemplo : DB :=
  ⟨[usuRootEjemplo, usuActivoEjemplo], [], [], [], [], []⟩

/-- The principal of the technician account. -/
def cuTecnicoEjemplo : TokenData :=
  ⟨some "64b000000000000000000002", some "tecnico@residencia.cl", some "tecnico"⟩

/-! ## Helper lemmas -/

/-- The dedupe query stays satisfied when further alerts are appended. -/
theorem existeAlertaActiva_append (al suf : List Alerta) (et ei t : String)
    (h : existeAlertaActiva al et ei t = true) :
    existeAlertaActiva (al ++ suf) et ei t = true := by
  simp only [existeAlertaActiva, List.any_append, Bool.or_eq_true]
  exact Or.inl h

/-- Removing the first document matched by `p` keeps every document distinct
from the matched one. -/
theorem mem_deleteOneUsuario (l : List Usuario) (p : Usuario → Bool)
    (u x : Usuario) (hfind : l.find? p = some x) (hmem : u ∈ l) (hne : u ≠ x) :
    u ∈ deleteOneUsuario l p := by
  induction l with
  | nil => cases hmem
  | cons a t ih =>
    by_cases hp : p a = true
    · rw [List.find?_cons_of_pos _ hp] at hfind
      have hax : a = x := by injection hfind
      have : deleteOneUsuario (a :: t) p = t := by
        simp [deleteOneUsuario, hp]
      rw [this]
      rcases List.mem_cons.mp hmem with rfl | hmt
      · exact absurd hax hne
      · exact hmt
    · rw [List.find?_cons_of_neg _ (by simpa using hp)] at hfind
      have : deleteOneUsuario (a :: t) p = a :: deleteOneUsuario t p := by
        simp [deleteOneUsuario, hp]
      rw [this]
      rcases List.mem_cons.mp hmem with rfl | hmt
      · exact List.mem_cons_self _ _
      · exact List.mem_cons_of_mem _ (ih hfind hmt)

/-- Key-packaged form of `existeAlertaActiva_append`. -/
theorem existeAlertaActivaKey_append (al suf : List Alerta)
    (k : String × String × String) (h : existeAlertaActivaKey al k = true) :
    existeAlertaActivaKey (al ++ suf) k = true :=
  existeAlertaActiva_append al suf k.1 k.2.1 k.2.2 h

/-- A generator loop whose step skips subjects that already have a live alert
is a no-op on a state where every candidate's subject key is covered. -/
theorem foldlM_skip_of_existing {α : Type}
    (step : (List Alerta × Nat) → α → Except BatchError (List Alerta × Nat))
    (key : α → String × String × String)
    (hskip : ∀ al n it, existeAlertaActivaKey al (key it) = true →
        step (al, n) it = .ok (al, n)) :
    ∀ (items : List α) (al : List Alerta) (n : Nat),
      (∀ it ∈ items, existeAlertaActivaKey al (key it) = true) →
      items.foldlM step (al, n) = .ok (al, n) := by
  intro items
  induction items with
  | nil => intro al n _; rfl
  | cons a t ih =>
    intro al n hall
    rw [List.foldlM_cons, hskip al n a (hall a (List.mem_cons_self a t))]
    exact ih al n (fun it hit => hall it (List.mem_cons_of_mem a hit))

/-- A generator loop whose step only appends alerts, and leaves the processed
subject's key covered, ends with every processed key covered. -/
theorem foldlM_establishes_existing {α : Type}
    (step : (List Alerta × Nat) → α → Except BatchError (List Alerta × Nat))
    (key : α → String × String × String)
    (hstep : ∀ al n it r, step (al, n) it = .ok r →
        (∃ suf, r.1 = al ++ suf) ∧ existeAlertaActivaKey r.1 (key it) = true) :
    ∀ (items : List α) (al : List Alerta) (n : Nat) (r : List Alerta × Nat),
      items.foldlM step (al, n) = .ok r →
      (∃ suf, r.1 = al ++ suf) ∧
      (∀ it ∈ items, existeAlertaActivaKey r.1 (key it) = true) := by
  intro items
  induction items with
  | nil =>
    intro al n r h
    rw [List.foldlM_nil] at h
    have h2 : (Except.ok (al, n) : Except BatchError (List Alerta × Nat)) = .ok r := h
    injection h2 with h3
    subst h3
    exact ⟨⟨[], by simp⟩, fun it hit => absurd hit (List.not_mem_nil it)⟩
  | cons a t ih =>
    intro al n r h
    rw [List.foldlM_cons] at h
    cases hs : step (al, n) a with
    | error e =>
      rw [hs] at h
      exact Except.noConfusion h
    | ok r1 =>
      rw [hs] at h
      obtain ⟨al1, n1⟩ := r1
      obtain ⟨⟨s1, hs1⟩, hk1⟩ := hstep al n a (al1, n1) hs
      obtain ⟨⟨s2, hs2⟩, hall⟩ := ih al1 n1 r h
      have hs1b : al1 = al ++ s1 := hs1
      refine ⟨⟨s1 ++ s2, by rw [hs2, hs1b, List.append_assoc]⟩, ?_⟩
      intro it hit
      rcases List.mem_cons.mp hit with rfl | hmt
      · rw [hs2]
        exact existeAlertaActivaKey_append al1 s2 _ hk1
      · exact hall it hmt

/-- The intervention step skips a subject whose live alert already exists. -/
theorem procesarIntervencion_skip (db : DB) (user : TokenData)
    (al : List Alerta) (n : Nat) (it : Intervencion)
    (h : existeAlertaActivaKey al ("intervencion", it.id, "seguimiento_pendiente") = true) :
    procesarIntervencion db user (al, n) it = .ok (al, n) := by
  have h2 : existeAlertaActiva al "intervencion" it.id "seguimiento_pendiente" = true := h
  simp [procesarIntervencion, h2]

/-- The workshop step skips a subject whose live alert already exists. -/
theorem procesarTaller_skip (user : TokenData)
    (al : List Alerta) (n : Nat) (it : Taller)
    (h : existeAlertaActivaKey al ("taller", it.id, "taller_proximo") = true) :
    procesarTaller user (al, n) it = .ok (al, n) := by
  have h2 : existeAlertaActiva al "taller" it.id "taller_proximo" = true := h
  simp [procesarTaller, h2]

/-- The judicial-measure step skips a subject whose live alert already
exists. -/
theorem procesarMedida_skip (db : DB) (today : Int) (user : TokenData)
    (al : List Alerta) (n : Nat) (it : Medida)
    (h : existeAlertaActivaKey al ("medida_judicial", it.id, "vencimiento_plazo") = true) :
    procesarMedida db today user (al, n) it = .ok (al, n) := by
  have h2 : existeAlertaActiva al "medida_judicial" it.id "vencimiento_plazo" = true := h
  simp [procesarMedida, h2]

/-- A successful intervention step only appends alerts and leaves its own
subject key covered by a live alert. -/
theorem procesarIntervencion_establishes (db : DB) (user : TokenData)
    (al : List Alerta) (n : Nat) (it : Intervencion) (r : List Alerta × Nat)
    (h : procesarIntervencion db user (al, n) it = .ok r) :
    (∃ suf, r.1 = al ++ suf) ∧
    existeAlertaActivaKey r.1 ("intervencion", it.id, "seguimiento_pendiente") = true := by
  obtain ⟨r1, r2⟩ := r
  unfold procesarIntervencion at h
  by_cases hex : existeAlertaActiva al "intervencion" it.id "seguimiento_pendiente" = true
  · simp [hex] at h
    obtain ⟨h1, h2⟩ := h
    subst h1
    exact ⟨⟨[], by simp⟩, hex⟩
  · cases hn : it.nna_id with
    | none => simp [hex, hn] at h
    | some nid =>
      by_cases hv : isValidObjectId nid = true
      · cases hf : it.fecha with
        | none => simp [hex, hn, hv, hf] at h
        | some fecha =>
          simp [hex, hn, hv, hf] at h
          obtain ⟨h1, h2⟩ := h
          subst h1
          refine ⟨⟨[mkAlertaIntervencion it nid (nnaNombre db nid) fecha user], rfl⟩, ?_⟩
          simp [existeAlertaActivaKey, existeAlertaActiva, List.any_append,
            mkAlertaIntervencion]
      · simp [hex, hn, hv] at h

/-- A successful workshop step only appends alerts and leaves its own subject
key covered by a live alert. -/
theorem procesarTaller_establishes (user : TokenData)
    (al : List Alerta) (n : Nat) (it : Taller) (r : List Alerta × Nat)
    (h : procesarTaller user (al, n) it = .ok r) :
    (∃ suf, r.1 = al ++ suf) ∧
    existeAlertaActivaKey r.1 ("taller", it.id, "taller_proximo") = true := by
  obtain ⟨r1, r2⟩ := r
  unfold procesarTaller at h
  by_cases hex : existeAlertaActiva al "taller" it.id "taller_proximo" = true
  · simp [hex] at h
    obtain ⟨h1, h2⟩ := h
    subst h1
    exact ⟨⟨[], by simp⟩, hex⟩
  · cases hn : it.nombre with
    | none => simp [hex, hn] at h
    | some nombre =>
      simp [hex, hn] at h
      obtain ⟨h1, h2⟩ := h
      subst h1
      refine ⟨⟨[mkAlertaTaller it nombre user], rfl⟩, ?_⟩
      simp [existeAlertaActivaKey, existeAlertaActiva, List.any_append,
        mkAlertaTaller]

/-- A successful judicial-measure step only appends alerts and leaves its own
subject key covered by a live alert. -/
theorem procesarMedida_establishes (db : DB) (today : Int) (user : TokenData)
    (al : List Alerta) (n : Nat) (it : Medida) (r : List Alerta × Nat)
    (h : procesarMedida db today user (al, n) it = .ok r) :
    (∃ suf, r.1 = al ++ suf) ∧
    existeAlertaActivaKey r.1 ("medida_judicial", it.id, "vencimiento_plazo") = true := by
  obtain ⟨r1, r2⟩ := r
  unfold procesarMedida at h
  by_cases hex : existeAlertaActiva al "medida_judicial" it.id "vencimiento_plazo" = true
  · simp [hex] at h
    obtain ⟨h1, h2⟩ := h
    subst h1
    exact ⟨⟨[], by simp⟩, hex⟩
  · cases hn : it.nna_id with
    | none => simp [hex, hn] at h
    | some nid =>
      by_cases hv : isValidObjectId nid = true
      · simp [hex, hn, hv] at h
        obtain ⟨h1, h2⟩ := h
        subst h1
        refine ⟨⟨[mkAlertaMedida today it nid (nnaNombre db nid) user], rfl⟩, ?_⟩
        simp [existeAlertaActivaKey, existeAlertaActiva, List.any_append,
          mkAlertaMedida]
      · simp [hex, hn, hv] at h

/-- Evaluation of `generar_alertas_vencimientos` from the results of its two
loops. -/
theorem gen_venc_of_folds (db : DB) (today : Int) (user : TokenData)
    (r1 r2 : List Alerta × Nat)
    (h1 : (intervencionesCandidatas db today).foldlM
        (procesarIntervencion db user) (db.alertas, 0) = .ok r1)
    (h2 : (talleresCandidatos db today).foldlM (procesarTaller user) r1 = .ok r2) :
    generar_alertas_vencimientos db today user
      = .ok ({db with alertas := r2.1}, r2.2) := by
  unfold generar_alertas_vencimientos
  rw [h1]
  show ((talleresCandidatos db today).foldlM (procesarTaller user) r1 >>=
      fun acc2 => (Except.ok ({db with alertas := acc2.1}, acc2.2) :
        Except BatchError (DB × Nat)))
    = .ok ({db with alertas := r2.1}, r2.2)
  rw [h2]
  rfl

/-- Evaluation of `generar_alertas_vencimiento` from the result of its loop. -/
theorem gen_jud_of_fold (db : DB) (today : Int) (user : TokenData)
    (r : List Alerta × Nat)
    (h : (medidasCandidatas db today).foldlM
        (procesarMedida db today user) (db.alertas, 0) = .ok r) :
    generar_alertas_vencimiento db today user
      = .ok ({db with alertas := r.1}, r.2) := by
  unfold generar_alertas_vencimiento
  rw [h]
  rfl

/-- A second run of the vencimientos generator right after a completed first
run creates no alerts and leaves the database unchanged. -/
theorem generar_vencimientos_run2 (db : DB) (today : Int) (user : TokenData)
    (db1 : DB) (n1 : Nat)
    (h : generar_alertas_vencimientos db today user = .ok (db1, n1)) :
    generar_alertas_vencimientos db1 today user = .ok (db1, 0) := by
  unfold generar_alertas_vencimientos at h
  cases h1 : (intervencionesCandidatas db today).foldlM
      (procesarIntervencion db user) (db.alertas, 0) with
  | error e => rw [h1] at h; exact Except.noConfusion h
  | ok acc1 =>
    rw [h1] at h
    obtain ⟨a1, m1⟩ := acc1
    have hb : ((talleresCandidatos db today).foldlM (procesarTaller user) (a1, m1) >>=
        fun acc2 => (Except.ok ({db with alertas := acc2.1}, acc2.2) :
          Except BatchError (DB × Nat))) = .ok (db1, n1) := h
    cases h2 : (talleresCandidatos db today).foldlM (procesarTaller user) (a1, m1) with
    | error e => rw [h2] at hb; exact Except.noConfusion hb
    | ok acc2 =>
      rw [h2] at hb
      obtain ⟨a2, m2⟩ := acc2
      have hc : (Except.ok ({db with alertas := a2}, m2) :
          Except BatchError (DB × Nat)) = .ok (db1, n1) := hb
      injection hc with h3
      have hdb : {db with alertas := a2} = db1 := congrArg Prod.fst h3
      obtain ⟨⟨s1, hs1⟩, hall1⟩ := foldlM_establishes_existing _
        (fun it => ("intervencion", it.id, "seguimiento_pendiente"))
        (fun al n it r hh => procesarIntervencion_establishes db user al n it r hh)
        _ _ _ _ h1
      obtain ⟨⟨s2, hs2⟩, hall2⟩ := foldlM_establishes_existing _
        (fun it => ("taller", it.id, "taller_proximo"))
        (fun al n it r hh => procesarTaller_establishes user al n it r hh)
        _ _ _ _ h2
      have hs2b : a2 = a1 ++ s2 := hs2
      subst hdb
      have hskipI : (intervencionesCandidatas {db with alertas := a2} today).foldlM
          (procesarIntervencion {db with alertas := a2} user)
          (({db with alertas := a2}).alertas, 0)
          = .ok (({db with alertas := a2}).alertas, 0) :=
        foldlM_skip_of_existing _
          (fun it => ("intervencion", it.id, "seguimiento_pendiente"))
          (fun al n it hh =>
            procesarIntervencion_skip {db with alertas := a2} user al n it hh)
          (intervencionesCandidatas db today) a2 0
          (fun it hit => by
            have hk : existeAlertaActivaKey a1
                ("intervencion", it.id, "seguimiento_pendiente") = true := hall1 it hit
            rw [hs2b]
            exact existeAlertaActivaKey_append a1 s2 _ hk)
      have hskipT : (talleresCandidatos {db with alertas := a2} today).foldlM
          (procesarTaller user) (({db with alertas := a2}).alertas, 0)
          = .ok (({db with alertas := a2}).alertas, 0) :=
        foldlM_skip_of_existing _
          (fun it => ("taller", it.id, "taller_proximo"))
          (fun al n it hh => procesarTaller_skip user al n it hh)
          (talleresCandidatos db today) a2 0
          (fun it hit => hall2 it hit)
      exact gen_venc_of_folds {db with alertas := a2} today user
        (a2, 0) (a2, 0) hskipI hskipT

/-- A second run of the judicial generator right after a completed first run
creates no alerts and leaves the database unchanged. -/
theorem generar_vencimiento_run2 (db : DB) (today : Int) (user : TokenData)
    (db2 : DB) (n2 : Nat)
    (h : generar_alertas_vencimiento db today user = .ok (db2, n2)) :
    generar_alertas_vencimiento db2 today user = .ok (db2, 0) := by
  unfold generar_alertas_vencimiento at h
  cases h1 : (medidasCandidatas db today).foldlM
      (procesarMedida db today user) (db.alertas, 0) with
  | error e => rw [h1] at h; exact Except.noConfusion h
  | ok acc =>
    rw [h1] at h
    obtain ⟨a1, m1⟩ := acc
    have hc : (Except.ok ({db with alertas := a1}, m1) :
        Except BatchError (DB × Nat)) = .ok (db2, n2) := h
    injection hc with h3
    have hdb : {db with alertas := a1} = db2 := congrArg Prod.fst h3
    obtain ⟨⟨s1, hs1⟩, hall1⟩ := foldlM_establishes_existing _
      (fun it => ("medida_judicial", it.id, "vencimiento_plazo"))
      (fun al n it r hh => procesarMedida_establishes db today user al n it r hh)
      _ _ _ _ h1
    subst hdb
    have hskipM : (medidasCandidatas {db with alertas := a1} today).foldlM
        (procesarMedida {db with alertas := a1} today user)
        (({db with alertas := a1}).alertas, 0)
        = .ok (({db with alertas := a1}).alertas, 0) :=
      foldlM_skip_of_existing _
        (fun it => ("medida_judicial", it.id, "vencimiento_plazo"))
        (fun al n it hh =>
          procesarMedida_skip {db with alertas := a1} today user al n it hh)
        (medidasCandidatas db today) a1 0
        (fun it hit => hall1 it hit)
    exact gen_jud_of_fold {db with alertas := a1} today user (a1, 0) hskipM

/-! ## Claim theorems -/

/-- C1: for roles drawn from the ordered set viewer < tecnico < coordinador <
admin with levels {viewer:1, tecnico:2, coordinador:3, admin:4},
`has_permission r2 r1` is true whenever the level of r1 is at most the level
of r2, and `has_permission r1 r2` is false whenever the level of r1 is
strictly below the level of r2. -/
theorem has_permission_monotone (r1 r2 : Role) :
    (dictGet ROLE_HIERARCHY r1.toStr 0 ≤ dictGet ROLE_HIERARCHY r2.toStr 0 →
      has_permission r2.toStr r1.toStr = true) ∧
    (dictGet ROLE_HIERARCHY r1.toStr 0 < dictGet ROLE_HIERARCHY r2.toStr 0 →
      has_permission r1.toStr r2.toStr = false) := by
  cases r1 <;> cases r2 <;> exact ⟨by decide, by decide⟩

/-- Witness for C1 at the concrete pair (viewer, admin). -/
theorem has_permission_monotone_witness :
    has_permission Role.admin.toStr Role.viewer.toStr = true ∧
    has_permission Role.viewer.toStr Role.admin.toStr = false :=
  ⟨(has_permission_monotone Role.viewer Role.admin).1 (by decide),
   (has_permission_monotone Role.viewer Role.admin).2 (by decide)⟩

/-- C2 counterexample: "ghost" is not one of the four known roles, yet
`has_permission "ghost" "ghost"` returns true, because both the unknown user
role and the unknown required role map to level 0 and 0 ≥ 0 holds. -/
theorem has_permission_unknown_counterexample :
    ("ghost" ≠ "viewer" ∧ "ghost" ≠ "tecnico" ∧
     "ghost" ≠ "coordinador" ∧ "ghost" ≠ "admin") ∧
    has_permission "ghost" "ghost" = true := by
  refine ⟨⟨?_, ?_, ?_, ?_⟩, ?_⟩ <;> decide

/-- C2 amended: an unknown user role maps to level 0 and is denied whenever
the required role is one of the four known roles (it is granted only against
a required role that is itself unknown, both sides then sitting at level 0). -/
theorem has_permission_unknown_denied (u : String) (r : Role)
    (h1 : u ≠ "viewer") (h2 : u ≠ "tecnico")
    (h3 : u ≠ "coordinador") (h4 : u ≠ "admin") :
    has_permission u r.toStr = false := by
  have e1 : (("viewer" : String) == u) = false := beq_eq_false_iff_ne.mpr (Ne.symm h1)
  have e2 : (("tecnico" : String) == u) = false := beq_eq_false_iff_ne.mpr (Ne.symm h2)
  have e3 : (("coordinador" : String) == u) = false := beq_eq_false_iff_ne.mpr (Ne.symm h3)
  have e4 : (("admin" : String) == u) = false := beq_eq_false_iff_ne.mpr (Ne.symm h4)
  have hu : dictGet ROLE_HIERARCHY u 0 = 0 := by
    simp [dictGet, ROLE_HIERARCHY, List.find?, e1, e2, e3, e4]
  unfold has_permission
  rw [decide_eq_false_iff_not, hu]
  cases r <;> simp [Role.toStr, dictGet, ROLE_HIERARCHY, List.find?]

/-- Witness for C2's amended theorem at the unknown role "ghost" against the
known required role viewer. -/
theorem has_permission_unknown_denied_witness :
    has_permission "ghost" Role.viewer.toStr = false :=
  has_permission_unknown_denied "ghost" Role.viewer
    (by decide) (by decide) (by decide) (by decide)

/-- C3: for every decoded payload whose "type" claim differs from "access"
(refresh tokens, or payloads with no type claim at all), `get_current_user`
raises the 401 wrong-token-type error and never returns a principal,
regardless of the remaining claims. -/
theorem get_current_user_rejects_non_access (p : Payload)
    (h : p.type? ≠ some "access") :
    get_current_user (some p) = .error (.unauthorized "Tipo de token inválido") := by
  have hv : verify_token_type p "access" = false := by
    simp [verify_token_type, h]
  simp [get_current_user, hv]

/-- Witness for C3 at a refresh-token payload with otherwise valid claims. -/
theorem get_current_user_rejects_non_access_witness :
    get_current_user
        (some ⟨some "refresh", some "64a0000000000000000000aa",
               some "admin@residencia.cl", some "admin"⟩)
      = .error (.unauthorized "Tipo de token inválido") :=
  get_current_user_rejects_non_access _ (by decide)

/-- C7: `validate_rut_chile` implements the Chilean RUT checksum; in
particular the empty string is accepted, "12345678-5" carries the correct
check digit and "12345678-0" does not. -/
theorem validate_rut_chile_examples :
    validate_rut_chile "" = true ∧
    validate_rut_chile "12345678-5" = true ∧
    validate_rut_chile "12345678-0" = false := by
  refine ⟨?_, ?_, ?_⟩ <;> decide

/-- C5: alerts inserted for judicial measures carry the priority computed from
days remaining until `fecha_termino` by the fixed thresholds ≤7 ↦ "critica",
8..15 ↦ "alta", >15 ↦ "media" (in particular 5 ↦ "critica", 12 ↦ "alta",
25 ↦ "media"), and alerts inserted for follow-up interventions carry "alta"
exactly when the source intervention is "urgente" and "media" otherwise. -/
theorem prioridad_thresholds (d : Int) (p : Option String) (today : Int)
    (m : Medida) (i : Intervencion) (nid nombre fecha : String) (user : TokenData) :
    (mkAlertaMedida today m nid nombre user).prioridad
        = prioridadMedida (m.fecha_termino - today) ∧
    (d ≤ 7 → prioridadMedida d = "critica") ∧
    (8 ≤ d → d ≤ 15 → prioridadMedida d = "alta") ∧
    (15 < d → prioridadMedida d = "media") ∧
    prioridadMedida 5 = "critica" ∧
    prioridadMedida 12 = "alta" ∧
    prioridadMedida 25 = "media" ∧
    (mkAlertaIntervencion i nid nombre fecha user).prioridad
        = prioridadIntervencion i.prioridad ∧
    (prioridadIntervencion p = "alta" ↔ p = some "urgente") ∧
    (p ≠ some "urgente" → prioridadIntervencion p = "media") := by
  refine ⟨rfl, ?_, ?_, ?_, by decide, by decide, by decide, rfl, ?_, ?_⟩
  · intro h
    simp [prioridadMedida, h]
  · intro h8 h15
    rw [prioridadMedida, if_neg (by omega), if_pos h15]
  · intro h15
    rw [prioridadMedida, if_neg (by omega), if_neg (by omega)]
  · by_cases hp : p = some "urgente"
    · simp [prioridadIntervencion, hp]
    · have : (p == some "urgente") = false := beq_eq_false_iff_ne.mpr hp
      rw [prioridadIntervencion, this]
      simp only [if_false, Bool.false_eq_true]
      exact iff_of_false (by decide) hp
  · intro hp
    have : (p == some "urgente") = false := beq_eq_false_iff_ne.mpr hp
    rw [prioridadIntervencion, this]
    simp

/-- Witness for C5 at the concrete day counts 5, 12 and 25 and at an urgent
and a non-urgent source intervention. -/
theorem prioridad_thresholds_witness :
    prioridadMedida 5 = "critica" ∧ prioridadMedida 12 = "alta" ∧
    prioridadMedida 25 = "media" ∧
    prioridadIntervencion (some "urgente") = "alta" ∧
    prioridadIntervencion none = "media" :=
  ⟨(prioridad_thresholds 5 none 0 ⟨"", none, none, 0, ""⟩
      ⟨"", none, none, none, "", none⟩ "" "" "" ⟨none, none, none⟩).2.1 (by decide),
   (prioridad_thresholds 12 none 0 ⟨"", none, none, 0, ""⟩
      ⟨"", none, none, none, "", none⟩ "" "" "" ⟨none, none, none⟩).2.2.1
      (by decide) (by decide),
   (prioridad_thresholds 25 none 0 ⟨"", none, none, 0, ""⟩
      ⟨"", none, none, none, "", none⟩ "" "" "" ⟨none, none, none⟩).2.2.2.1 (by decide),
   ((prioridad_thresholds 0 (some "urgente") 0 ⟨"", none, none, 0, ""⟩
      ⟨"", none, none, none, "", none⟩ "" "" "" ⟨none, none, none⟩).2.2.2.2.2.2.2.2.1).mpr rfl,
   (prioridad_thresholds 0 none 0 ⟨"", none, none, 0, ""⟩
      ⟨"", none, none, none, "", none⟩ "" "" "" ⟨none, none, none⟩).2.2.2.2.2.2.2.2.2
      (by decide)⟩

/-- C8 (code bug): `validate_rut_chile` is not total over every input
string. On "²2" the `cuerpo.isdigit()` guard passes, because `str.isdigit`
accepts the superscript digit '²' (Unicode `Numeric_Type=Digit`), yet
`int('²')` then raises an uncaught `ValueError`: the `isdigit` guard does not
cover the domain of `int`, so the source throws where the specified contract
says it never does. -/
theorem validate_rut_chile_not_total :
    pyIsDigit '²' = true ∧ charDigit '²' = none ∧
    validate_rut_chileChecked "²2" = none := by
  refine ⟨rfl, rfl, rfl⟩

/-- C9: the distinguished root administrator account
("admin@residencia.cl") is never hard-deleted: whenever the target of
`delete_user` resolves to that account the operation fails, and whenever
`delete_user` succeeds every document bearing the root administrator's email
is still in the `usuarios` collection afterwards. -/
theorem delete_user_preserves_root_admin (db : DB) (user_id : String)
    (cu : TokenData) :
    (∀ u, db.usuarios.find? (fun v => v.id == user_id) = some u →
        u.email = "admin@residencia.cl" →
        (delete_user db user_id cu).isOk = false) ∧
    (∀ db2, delete_user db user_id cu = .ok db2 →
        ∀ u ∈ db.usuarios, u.email = "admin@residencia.cl" → u ∈ db2.usuarios) := by
  constructor
  · intro u hfind hemail
    by_cases hv : isValidObjectId user_id = true
    · simp [delete_user, hv, hfind, hemail, Except.isOk, Except.toBool]
    · simp [delete_user, hv, Except.isOk, Except.toBool]
  · intro db2 hok u hmem hemail
    by_cases hv : isValidObjectId user_id = true
    · cases hfind : db.usuarios.find? (fun v => v.id == user_id) with
      | none => simp [delete_user, hv, hfind] at hok
      | some ex =>
        by_cases hemx : (ex.email == "admin@residencia.cl") = true
        · simp [delete_user, hv, hfind, hemx] at hok
        · by_cases hself : (cu.user_id == some ex.id) = true
          · simp [delete_user, hv, hfind, hemx, hself] at hok
          · simp [delete_user, hv, hfind, hemx, hself] at hok
            have hne : u ≠ ex := by
              intro he
              exact hemx (by rw [← he, hemail]; simp)
            have hmem2 := mem_deleteOneUsuario db.usuarios
              (fun v => v.id == user_id) u ex hfind hmem hne
            rw [← hok]
            exact hmem2
    · simp [delete_user, hv] at hok

/-- Witness for C9: deleting the root administrator account by its id in a
concrete database fails. -/
theorem delete_user_preserves_root_admin_witness :
    (delete_user dbUsuariosEjemplo "64b000000000000000000001" cuTecnicoEjemplo).isOk
      = false :=
  (delete_user_preserves_root_admin dbUsuariosEjemplo "64b000000000000000000001"
    cuTecnicoEjemplo).1 usuRootEjemplo rfl rfl

/-- C10: an account document lacking the `activo` field is treated as active
wherever the flag is consulted: `get_current_active_user` returns the
principal and `login` succeeds given correct credentials, while the
account-disabled rejection (403) is produced if and only if the stored
`activo` field is present and false. -/
theorem activo_missing_treated_active (db : DB) (cu : TokenData) (u v : Usuario)
    (verify : String → String → Bool) (creds : UserLogin) (now : Int) :
    (db.usuarios.find? (fun w => cu.user_id == some w.id) = some u →
      ((u.activo = none → get_current_active_user db cu = .ok cu) ∧
       ((∃ m, get_current_active_user db cu = .error (.forbidden m)) ↔
         u.activo = some false))) ∧
    (db.usuarios.find? (fun w => w.email == creds.email) = some v →
      ((v.activo = none → verify creds.password v.password_hash = true →
          login verify db creds now
            = .ok ({ db with usuarios := setUltimoAcceso db.usuarios v.id now },
                   ⟨v.id, v.email, v.rol, v.nombre⟩)) ∧
       ((∃ m, login verify db creds now = .error (.forbidden m)) ↔
         v.activo = some false))) := by
  constructor
  · intro hfind
    constructor
    · intro hnone
      simp [get_current_active_user, hfind, hnone]
    · cases hA : u.activo with
      | none => simp [get_current_active_user, hfind, hA]
      | some b => cases b <;> simp [get_current_active_user, hfind, hA]
  · intro hfind
    constructor
    · intro hnone hpw
      simp [login, hfind, hnone, hpw]
    · cases hA : v.activo with
      | none =>
        by_cases hpw : verify creds.password v.password_hash = true <;>
          simp [login, hfind, hA, hpw]
      | some b =>
        cases b with
        | true =>
          by_cases hpw : verify creds.password v.password_hash = true <;>
            simp [login, hfind, hA, hpw]
        | false => simp [login, hfind, hA]

/-- Witness for C10: in a concrete database whose technician account lacks
the `activo` field, the per-request active check passes and login with the
correct password succeeds. -/
theorem activo_missing_treated_active_witness :
    get_current_active_user dbUsuariosEjemplo cuTecnicoEjemplo
      = .ok cuTecnicoEjemplo ∧
    login (fun p h => p == h) dbUsuariosEjemplo
        ⟨"tecnico@residencia.cl", "hashpw"⟩ 0
      = .ok ({ dbUsuariosEjemplo with
                usuarios := setUltimoAcceso dbUsuariosEjemplo.usuarios
                  "64b000000000000000000002" 0 },
             ⟨"64b000000000000000000002", "tecnico@residencia.cl", "tecnico", "Tec"⟩) :=
  ⟨((activo_missing_treated_active dbUsuariosEjemplo cuTecnicoEjemplo
      usuActivoEjemplo usuActivoEjemplo (fun p h => p == h)
      ⟨"tecnico@residencia.cl", "hashpw"⟩ 0).1 rfl).1 rfl,
   ((activo_missing_treated_active dbUsuariosEjemplo cuTecnicoEjemplo
      usuActivoEjemplo usuActivoEjemplo (fun p h => p == h)
      ⟨"tecnico@residencia.cl", "hashpw"⟩ 0).2 rfl).1 rfl rfl⟩

/-- C4: the alert generators are idempotent over an unchanged data set:
after a completed run of `generar_alertas_vencimientos` (respectively
`generar_alertas_vencimiento`), an immediate second run with no other changes
inserts zero alert documents and returns `alertas_creadas = 0`, because each
candidate's dedupe query now finds a live alert and the candidate is
skipped. -/
theorem generadores_idempotentes (db : DB) (today : Int) (user : TokenData)
    (db1 db2 : DB) (n1 n2 : Nat) :
    (generar_alertas_vencimientos db today user = .ok (db1, n1) →
      generar_alertas_vencimientos db1 today user = .ok (db1, 0)) ∧
    (generar_alertas_vencimiento db today user = .ok (db2, n2) →
      generar_alertas_vencimiento db2 today user = .ok (db2, 0)) :=
  ⟨generar_vencimientos_run2 db today user db1 n1,
   generar_vencimiento_run2 db today user db2 n2⟩

/-- Witness for C4: on a concrete database with one pending intervention, one
scheduled workshop and one expiring measure, the first runs create 2 and 1
alerts and the immediate second runs create 0. -/
theorem generadores_idempotentes_witness :
    generar_alertas_vencimientos dbEjemplo 0 cuEjemplo = .ok (dbEjemplo1, 2) ∧
    generar_alertas_vencimientos dbEjemplo1 0 cuEjemplo = .ok (dbEjemplo1, 0) ∧
    generar_alertas_vencimiento dbEjemplo 0 cuEjemplo = .ok (dbEjemplo2, 1) ∧
    generar_alertas_vencimiento dbEjemplo2 0 cuEjemplo = .ok (dbEjemplo2, 0) :=
  ⟨by rfl,
   (generadores_idempotentes dbEjemplo 0 cuEjemplo dbEjemplo1 dbEjemplo2 2 1).1
     (by rfl),
   by rfl,
   (generadores_idempotentes dbEjemplo 0 cuEjemplo dbEjemplo1 dbEjemplo2 2 1).2
     (by rfl)⟩

/-- C6 counterexample: a batch containing a single candidate intervention
whose `nna_id` field is missing aborts the whole run with an uncaught
`KeyError` instead of skipping the record and returning a count. -/
theorem generador_aborta_counterexample :
    generar_alertas_vencimientos dbMalformada 0 cuEjemplo
      = .error (.keyError "nna_id") := by
  rfl

/-- C6 amended: a candidate whose linked resident id does not resolve to an
existing NNA document does not abort the batch — the generator proceeds with
the fallback name "NNA", inserts the alert and continues counting; but a
candidate record lacking the `nna_id` field entirely raises an uncaught
`KeyError` that aborts the whole batch (there is no per-record exception
handler in the source). -/
theorem generador_fallback_continua (db : DB) (today : Int) (user : TokenData)
    (al : List Alerta) (n : Nat) (it : Intervencion) (m : Medida)
    (nid nid2 fecha : String) :
    (it.nna_id = some nid → isValidObjectId nid = true →
      db.nna.find? (fun x => x.id == nid) = none →
      it.fecha = some fecha →
      existeAlertaActiva al "intervencion" it.id "seguimiento_pendiente" = false →
      procesarIntervencion db user (al, n) it
        = .ok (al ++ [mkAlertaIntervencion it nid "NNA" fecha user], n + 1)) ∧
    (m.nna_id = some nid2 → isValidObjectId nid2 = true →
      db.nna.find? (fun x => x.id == nid2) = none →
      existeAlertaActiva al "medida_judicial" m.id "vencimiento_plazo" = false →
      procesarMedida db today user (al, n) m
        = .ok (al ++ [mkAlertaMedida today m nid2 "NNA" user], n + 1)) ∧
    (it.nna_id = none →
      existeAlertaActiva al "intervencion" it.id "seguimiento_pendiente" = false →
      procesarIntervencion db user (al, n) it = .error (.keyError "nna_id")) := by
  refine ⟨?_, ?_, ?_⟩
  · intro hn hv hmiss hf hex
    simp [procesarIntervencion, hex, hn, hv, hf, nnaNombre, hmiss]
  · intro hn hv hmiss hex
    simp [procesarMedida, hex, hn, hv, nnaNombre, hmiss]
  · intro hn hex
    simp [procesarIntervencion, hex, hn]

/-- Witness for C6's amended theorem: a concrete candidate whose resident id
resolves to no NNA document is processed with the fallback name and the batch
count advances. -/
theorem generador_fallback_continua_witness :
    procesarIntervencion dbEjemplo cuEjemplo ([], 0)
        ⟨"i1", some nidEjemplo, some "2025-01-01", some 3, "pendiente", some "urgente"⟩
      = .ok ([mkAlertaIntervencion
          ⟨"i1", some nidEjemplo, some "2025-01-01", some 3, "pendiente", some "urgente"⟩
          nidEjemplo "NNA" "2025-01-01" cuEjemplo], 1) :=
  (generador_fallback_continua dbEjemplo 0 cuEjemplo [] 0
      ⟨"i1", some nidEjemplo, some "2025-01-01", some 3, "pendiente", some "urgente"⟩
      ⟨"m1", some nidEjemplo, some "proteccion", 5, "vigente"⟩
      nidEjemplo nidEjemplo "2025-01-01").1 rfl (by rfl) rfl rfl rfl

end ResidenciaNNA
